import Mathlib

/-!
# Verification of the Intake Automation record-review app

A shallow embedding, in Lean 4, of `Intake_Automation_Combine.py`:
a role-gated record-review form over a remote spreadsheet with two
dataset apps (Pending-Triage and OPT-SVC), a text/status filter, a
session-persisted navigation cursor, and a commit protocol that writes
edited fields back to fixed spreadsheet cells.

The definitions below are translated from the source file; line numbers
in doc comments refer to `src/Intake_Automation_Combine.py`.
-/

namespace Intake

/-! ## Python string primitives

The app manipulates Python strings with `.lower()`, `.strip()` and
`in`.  These are modelled over the character list of the string, so
that every definition evaluates by kernel reduction. -/

/-- Lowering of a single character, as Python `str.lower` acts on the ASCII
characters appearing in this app (statuses, roles, names, emails). -/
def pyLowerChar (c : Char) : Char :=
  if 'A' ≤ c ∧ c ≤ 'Z' then Char.ofNat (c.toNat + 32) else c

/-- Python `str.lower()`. -/
def pyToLower (s : String) : String := ⟨s.data.map pyLowerChar⟩

/-- Python whitespace test used by `str.strip()`. -/
def pyIsSpace (c : Char) : Bool := c == ' ' || c == '\t' || c == '\n' || c == '\r'

/-- Python `str.strip()`: drop leading and trailing whitespace. -/
def pyStrip (s : String) : String :=
  ⟨((s.data.dropWhile pyIsSpace).reverse.dropWhile pyIsSpace).reverse⟩

/-! ## Cell writes and the dataset-1 commit (lines 234-256) -/

/-- One spreadsheet cell write: `sheet.update(f"{col}{row}", [[val]])`.
`col` is the fixed column letter, `row` the 1-based sheet row number. -/
structure CellWrite where
  col : String
  row : Nat
  val : String
deriving DecidableEq, Repr

/-- The sequence of `sheet.update` calls issued by the dataset-1
"Submit Update" handler (lines 236-249): always write the comments cell
(column R); write the status cell (column S) only when
`accepted.lower()` is one of `y`, `n`, `maybe`; then stamp the trail:
for `"y"` date column U and actor column T (lines 241-243), for `"n"`
date column W and actor column X (lines 244-246), for `"maybe"` actor
column T and date column U (lines 247-249). -/
def commitDataset1Writes (rowNumber : Nat)
    (comments accepted userEmail todayStr : String) : List CellWrite :=
  [⟨"R", rowNumber, comments⟩]
  ++ (if pyToLower accepted = "y" ∨ pyToLower accepted = "n" ∨
         pyToLower accepted = "maybe"
      then [⟨"S", rowNumber, accepted⟩] else [])
  ++ (if accepted = "y" then
        [⟨"U", rowNumber, todayStr⟩, ⟨"T", rowNumber, userEmail⟩]
      else if accepted = "n" then
        [⟨"W", rowNumber, todayStr⟩, ⟨"X", rowNumber, userEmail⟩]
      else if accepted = "maybe" then
        [⟨"T", rowNumber, userEmail⟩, ⟨"U", rowNumber, todayStr⟩]
      else [])

/-- The trail portion of a dataset-1 commit: the cell writes other than
the comments column R and the status column S (lines 240-249). -/
def trailWrites (ws : List CellWrite) : List CellWrite :=
  ws.filter (fun w => !(w.col == "R" || w.col == "S"))

/-- The column pair stamped by the `accepted == "maybe"` branch
(lines 247-249), derived from the commit writes themselves. -/
def pendingTrailCols : List String :=
  (trailWrites (commitDataset1Writes 0 "" "maybe" "" "")).map CellWrite.col

/-- The column pair stamped by the `accepted == "y"` branch
(lines 241-243), derived from the commit writes themselves. -/
def approvalTrailCols : List String :=
  (trailWrites (commitDataset1Writes 0 "" "y" "" "")).map CellWrite.col

/-- The column pair stamped by the `accepted == "n"` branch
(lines 244-246), derived from the commit writes themselves. -/
def rejectionTrailCols : List String :=
  (trailWrites (commitDataset1Writes 0 "" "n" "" "")).map CellWrite.col

example : pendingTrailCols = ["T", "U"] := by decide
example : approvalTrailCols = ["U", "T"] := by decide
example : rejectionTrailCols = ["W", "X"] := by decide

/-- C1: the claim asserts the pending trail written for `"maybe"` is
disjoint from the approval trail written for `"y"` and from the
rejection trail written for `"n"`, the three being pairwise disjoint.
It is not so: the `"maybe"` branch stamps columns T and U, the very
columns the `"y"` branch stamps.  Concretely, column T is a trail
column written both by a `"maybe"` commit and by a `"y"` commit. -/
theorem C1_counterexample :
    "T" ∈ (trailWrites (commitDataset1Writes 2 "c" "maybe" "a@b" "2026-10-12")).map
            CellWrite.col ∧
    "T" ∈ (trailWrites (commitDataset1Writes 2 "c" "y" "a@b" "2026-10-12")).map
            CellWrite.col ∧
    pendingTrailCols.all (fun x => !approvalTrailCols.contains x) = false := by
  decide

/-- C1 (amended): a `"maybe"` commit stamps actor/date columns T/U — the
same column pair the `"y"` approval stamps (in the other order); only the
rejection pair W/X is disjoint from the other two; and for every draft
status value, a single submission stamps at most one trail pair. -/
theorem C1_amended (rn : Nat) (c e d : String) :
    (trailWrites (commitDataset1Writes rn c "maybe" e d)).map CellWrite.col
      = ["T", "U"] ∧
    (trailWrites (commitDataset1Writes rn c "y" e d)).map CellWrite.col
      = ["U", "T"] ∧
    (trailWrites (commitDataset1Writes rn c "n" e d)).map CellWrite.col
      = ["W", "X"] ∧
    rejectionTrailCols.all
      (fun x => !(pendingTrailCols.contains x) && !(approvalTrailCols.contains x))
      = true ∧
    (∀ a, (trailWrites (commitDataset1Writes rn c a e d)).map CellWrite.col = ["U", "T"]
        ∨ (trailWrites (commitDataset1Writes rn c a e d)).map CellWrite.col = ["W", "X"]
        ∨ (trailWrites (commitDataset1Writes rn c a e d)).map CellWrite.col = ["T", "U"]
        ∨ (trailWrites (commitDataset1Writes rn c a e d)).map CellWrite.col = []) := by
  refine ⟨rfl, rfl, rfl, by decide, ?_⟩
  intro a
  by_cases hy : a = "y"
  · subst hy; exact Or.inl rfl
  by_cases hn : a = "n"
  · subst hn; exact Or.inr (Or.inl rfl)
  by_cases hm : a = "maybe"
  · subst hm; exact Or.inr (Or.inr (Or.inl rfl))
  refine Or.inr (Or.inr (Or.inr ?_))
  unfold commitDataset1Writes trailWrites
  rw [if_neg hy, if_neg hn, if_neg hm]
  split <;> rfl

/-- C4: the claim asserts a `"y"` commit leaves the pending trail columns
untouched.  But the pending trail occupies columns T and U (lines
247-249), and a `"y"` commit writes exactly those two columns as its
approval stamp: at a concrete input, column U (and T) is both a pending
trail column and a column written by the `"y"` commit. -/
theorem C4_counterexample :
    (commitDataset1Writes 2 "c" "y" "a@b" "2026-10-12").map CellWrite.col
      = ["R", "S", "U", "T"] ∧
    pendingTrailCols.contains "U" = true ∧
    ((commitDataset1Writes 2 "c" "y" "a@b" "2026-10-12").map CellWrite.col).contains "U"
      = true := by
  decide

/-- C4 (amended): a `"y"` commit writes exactly the comments cell
(column R, the draft comments), the status cell (column S, value `"y"`),
and the approval date/actor pair (columns U and T), all at the row's
origin row number; the rejection trail columns W and X are untouched;
the pending trail columns coincide with the approval pair T/U, so they
are written rather than left untouched. -/
theorem C4_amended (rn : Nat) (c e d : String) :
    (commitDataset1Writes rn c "y" e d).map CellWrite.col = ["R", "S", "U", "T"] ∧
    (commitDataset1Writes rn c "y" e d).map CellWrite.val = [c, "y", d, e] ∧
    (commitDataset1Writes rn c "y" e d).map CellWrite.row = [rn, rn, rn, rn] ∧
    ((commitDataset1Writes rn c "y" e d).map CellWrite.col).contains "W" = false ∧
    ((commitDataset1Writes rn c "y" e d).map CellWrite.col).contains "X" = false ∧
    pendingTrailCols = approvalTrailCols.reverse := by
  exact ⟨rfl, rfl, rfl, rfl, rfl, rfl⟩

/-! ## The dataset-2 commit (lines 382-396)

A `st.date_input` yields either a date or `None`; a date field is
written only when truthy (non-`None`), a text field only when
non-empty.  Dates are modelled by their already-formatted
`"%m/%d/%y"` string. -/

/-- The sequence of `sheet.update` calls issued by the dataset-2
"Submit Update" handler (lines 385-390): each of the four date cells
(AI = VCL issued, AJ = VCL start, AK = VCL end, AL = VEL issued) is
written only if its draft value is present, and the free-text status
cell (AN = final status) only if the draft string is non-empty. -/
def commitDataset2Writes (rowNumber : Nat)
    (vclIssued vclStart vclEnd velIssued : Option String)
    (finalStatus : String) : List CellWrite :=
  (match vclIssued with | some v => [⟨"AI", rowNumber, v⟩] | none => [])
  ++ (match vclStart with | some v => [⟨"AJ", rowNumber, v⟩] | none => [])
  ++ (match vclEnd with | some v => [⟨"AK", rowNumber, v⟩] | none => [])
  ++ (match velIssued with | some v => [⟨"AL", rowNumber, v⟩] | none => [])
  ++ (if finalStatus = "" then [] else [⟨"AN", rowNumber, finalStatus⟩])

/-- C6: each dataset-2 field is written back only when its draft value
is present: column AI is among the written cells iff the VCL-issued
draft is present, AJ iff VCL-start, AK iff VCL-end, AL iff VEL-issued,
and AN iff the free-text status draft is non-empty; and a commit with
only the VCL-start field filled writes exactly the single AJ cell,
leaving the VCL-end, VEL-issued and status cells (and VCL-issued)
unchanged. -/
theorem C6_frame_effect (rn : Nat) (ai aj ak al : Option String) (fs v : String) :
    (((commitDataset2Writes rn ai aj ak al fs).map CellWrite.col).contains "AI"
        = ai.isSome) ∧
    (((commitDataset2Writes rn ai aj ak al fs).map CellWrite.col).contains "AJ"
        = aj.isSome) ∧
    (((commitDataset2Writes rn ai aj ak al fs).map CellWrite.col).contains "AK"
        = ak.isSome) ∧
    (((commitDataset2Writes rn ai aj ak al fs).map CellWrite.col).contains "AL"
        = al.isSome) ∧
    (((commitDataset2Writes rn ai aj ak al fs).map CellWrite.col).contains "AN"
        = !(fs == "")) ∧
    commitDataset2Writes rn none (some v) none none "" = [⟨"AJ", rn, v⟩] := by
  refine ⟨?_, ?_, ?_, ?_, ?_, rfl⟩ <;>
    · cases ai <;> cases aj <;> cases ak <;> cases al <;>
        by_cases hfs : fs = "" <;>
        simp [commitDataset2Writes, hfs, List.contains]

/-! ## Backing store, write failures, and the submit handlers

Each `sheet.update` call is an atomic single-cell write against the
backing spreadsheet; any call may raise.  The store is modelled as a
map from (column letter, row number) to cell contents, and failure by
an oracle giving, per cell, the exception message raised there (or
`none` for success).  The handlers wrap the write sequence in
`try/except` (lines 235-256 and 383-396): writes are issued in order
until one raises; on success the cursor advances by one, on failure an
error banner with the cause is shown and the cursor is not moved. -/

/-- The backing spreadsheet: cell contents by column letter and row. -/
def Store : Type := String → Nat → String

/-- One successful `sheet.update`: replace the contents of one cell. -/
def setCell (s : Store) (w : CellWrite) : Store :=
  fun c r => if c = w.col ∧ r = w.row then w.val else s c r

/-- Issue a list of cell writes in order; stop at the first write whose
cell the failure oracle makes raise, returning the store as mutated so
far together with the exception message, if any. -/
def runWrites (failing : String → Nat → Option String) :
    List CellWrite → Store → Store × Option String
  | [], s => (s, none)
  | w :: ws, s =>
    match failing w.col w.row with
    | some msg => (s, some msg)
    | none => runWrites failing ws (setCell s w)

/-- Outcome of pressing "Submit Update": the store after the attempt,
the cursor position after the attempt, and the error banner text when
the attempt failed (`st.error(f"Failed to save changes: {e}")`). -/
def submitUpdate1 (failing : String → Nat → Option String)
    (store : Store) (pos : Int) (rowNumber : Nat)
    (comments accepted email today : String) : Store × Int × Option String :=
  match runWrites failing
      (commitDataset1Writes rowNumber comments accepted email today) store with
  | (s, none) => (s, pos + 1, none)
  | (s, some msg) => (s, pos, some ("Failed to save changes: " ++ msg))

/-- Dataset-2 counterpart of `submitUpdate1` (lines 382-396). -/
def submitUpdate2 (failing : String → Nat → Option String)
    (store : Store) (pos : Int) (rowNumber : Nat)
    (vclIssued vclStart vclEnd velIssued : Option String)
    (finalStatus : String) : Store × Int × Option String :=
  match runWrites failing
      (commitDataset2Writes rowNumber vclIssued vclStart vclEnd velIssued
        finalStatus) store with
  | (s, none) => (s, pos + 1, none)
  | (s, some msg) => (s, pos, some ("Failed to save changes: " ++ msg))

/-- C5: the claim asserts that when any cell write fails the stored data
is left unchanged.  It is not: writes are issued one cell at a time with
no rollback, so a failure part-way through leaves the earlier writes
applied.  Concretely, submitting a `"y"` decision on row 2 when the
status-cell write (column S) raises reports the failure, leaves the
cursor at 0, but has already overwritten the comments cell R2. -/
theorem C5_counterexample :
    (submitUpdate1 (fun c r => if c = "S" ∧ r = 2 then some "quota" else none)
        (fun _ _ => "old") 0 2 "hi" "y" "a@b" "2026-10-12").2.2
      = some "Failed to save changes: quota" ∧
    (submitUpdate1 (fun c r => if c = "S" ∧ r = 2 then some "quota" else none)
        (fun _ _ => "old") 0 2 "hi" "y" "a@b" "2026-10-12").2.1 = 0 ∧
    (submitUpdate1 (fun c r => if c = "S" ∧ r = 2 then some "quota" else none)
        (fun _ _ => "old") 0 2 "hi" "y" "a@b" "2026-10-12").1 "R" 2 = "hi" ∧
    "hi" ≠ "old" := by
  exact ⟨rfl, rfl, rfl, by decide⟩

/-- C5 (amended): on either dataset, when any cell write fails the
failure is reported to the user with its cause and the cursor is left
unchanged — the cursor advances (by one) only when every write
succeeded; writes issued before the failing one remain applied, with no
rollback. -/
theorem C5_amended (failing : String → Nat → Option String) (store : Store)
    (pos : Int) (rn : Nat) (c a e d : String)
    (ai aj ak al : Option String) (fs : String) :
    (∀ msg, (runWrites failing (commitDataset1Writes rn c a e d) store).2 = some msg →
      (submitUpdate1 failing store pos rn c a e d).2.1 = pos ∧
      (submitUpdate1 failing store pos rn c a e d).2.2
        = some ("Failed to save changes: " ++ msg) ∧
      (submitUpdate1 failing store pos rn c a e d).1
        = (runWrites failing (commitDataset1Writes rn c a e d) store).1) ∧
    ((runWrites failing (commitDataset1Writes rn c a e d) store).2 = none →
      (submitUpdate1 failing store pos rn c a e d).2.1 = pos + 1) ∧
    (∀ msg,
      (runWrites failing (commitDataset2Writes rn ai aj ak al fs) store).2 = some msg →
      (submitUpdate2 failing store pos rn ai aj ak al fs).2.1 = pos ∧
      (submitUpdate2 failing store pos rn ai aj ak al fs).2.2
        = some ("Failed to save changes: " ++ msg)) ∧
    ((runWrites failing (commitDataset2Writes rn ai aj ak al fs) store).2 = none →
      (submitUpdate2 failing store pos rn ai aj ak al fs).2.1 = pos + 1) := by
  refine ⟨?_, ?_, ?_, ?_⟩
  · intro msg hmsg
    unfold submitUpdate1
    rcases hrw : runWrites failing (commitDataset1Writes rn c a e d) store with ⟨s, err⟩
    rw [hrw] at hmsg
    simp at hmsg
    subst hmsg
    exact ⟨rfl, rfl, rfl⟩
  · intro hok
    unfold submitUpdate1
    rcases hrw : runWrites failing (commitDataset1Writes rn c a e d) store with ⟨s, err⟩
    rw [hrw] at hok
    simp at hok
    subst hok
    rfl
  · intro msg hmsg
    unfold submitUpdate2
    rcases hrw : runWrites failing (commitDataset2Writes rn ai aj ak al fs) store
      with ⟨s, err⟩
    rw [hrw] at hmsg
    simp at hmsg
    subst hmsg
    exact ⟨rfl, rfl⟩
  · intro hok
    unfold submitUpdate2
    rcases hrw : runWrites failing (commitDataset2Writes rn ai aj ak al fs) store
      with ⟨s, err⟩
    rw [hrw] at hok
    simp at hok
    subst hok
    rfl

/-- Witness for `C5_amended` at concrete inputs: with no failing cell,
both submits advance the cursor from 0 to 1. -/
theorem C5_amended_witness :
    (submitUpdate1 (fun _ _ => none) (fun _ _ => "") 0 2 "hi" "y" "a@b" "d").2.1 = 1 ∧
    (submitUpdate2 (fun _ _ => none) (fun _ _ => "") 0 4 none (some "01/02/26")
        none none "").2.1 = 1 := by
  have h := C5_amended (fun _ _ => none) (fun _ _ => "") 0 2 "hi" "y" "a@b" "d"
    none (some "01/02/26") none none ""
  have h2 := C5_amended (fun _ _ => none) (fun _ _ => "") 0 4 "hi" "y" "a@b" "d"
    none (some "01/02/26") none none ""
  exact ⟨h.2.1 rfl, h2.2.2.2 rfl⟩

/-! ## Rows, dataset loading (lines 138-139, 293-294) -/

/-- A row as read from the backing sheet, before the `RowNumber` column
is added: the fields the filter and the editor gate consult.  After
`.fillna('')` every absent cell is the empty string, so fields are
plain strings. -/
structure RawRow where
  email : String
  name : String
  status : String
deriving DecidableEq, Repr

/-- A loaded row: the raw fields plus the `RowNumber` tag
(`df['RowNumber'] = df.index + offset`). -/
structure Row where
  email : String
  name : String
  status : String
  rowNumber : Nat
deriving DecidableEq, Repr

/-- Models `df['RowNumber'] = df.index + offset`: tag each row with its local
index plus the per-dataset header offset (lines 139 and 294). -/
def assignRowNumbers (offset : Nat) (rows : List RawRow) : List Row :=
  rows.enum.map (fun p => ⟨p.2.email, p.2.name, p.2.status, p.1 + offset⟩)

/-- Load the Pending-Triage dataset: header occupies sheet row 1, the
first data row is sheet row 2, so `RowNumber = index + 2` (line 139). -/
def loadPendingTriage (rows : List RawRow) : List Row := assignRowNumbers 2 rows

/-- Load the OPT-SVC dataset: `get_as_dataframe(..., header=2)` puts the
first data row at sheet row 4, so `RowNumber = index + 4` (line 294). -/
def loadOptSvc (rows : List RawRow) : List Row := assignRowNumbers 4 rows

/-! ## The filter engine (lines 142-163 and 297-303)

The text filter is
`df['Email Address'].str.lower().str.contains(q, na=False) |
 df['Name (Last, First)'].str.lower().str.contains(q, na=False)`.
pandas `Series.str.contains` interprets its argument as a regular
expression (`regex=True` is the default), matched anywhere in the
string by `re.search`.  The queries this app receives are plain text,
so the matcher below models the regex fragment they can exercise:
literal characters plus the `.` metacharacter (match any character). -/

/-- One atom of a pandas `str.contains` pattern: a literal character, or
the `.` metacharacter matching any single character. -/
inductive PatAtom
  | dot : PatAtom
  | lit : Char → PatAtom
deriving DecidableEq, Repr

/-- Compile a pattern string into atoms: `.` becomes the wildcard, every
other character matches itself. -/
def compilePat (p : String) : List PatAtom :=
  p.data.map (fun c => if c = '.' then PatAtom.dot else PatAtom.lit c)

/-- Whether one pattern atom matches one character. -/
def atomMatch : PatAtom → Char → Bool
  | PatAtom.dot, _ => true
  | PatAtom.lit c, d => c == d

/-- Whether the whole pattern matches a prefix of the character list. -/
def matchHere : List PatAtom → List Char → Bool
  | [], _ => true
  | _ :: _, [] => false
  | a :: ps, c :: cs => atomMatch a c && matchHere ps cs

/-- Models `re.search`: whether the pattern matches starting at some offset. -/
def searchPat : List PatAtom → List Char → Bool
  | ps, [] => matchHere ps []
  | ps, c :: cs => matchHere ps (c :: cs) || searchPat ps cs

/-- pandas `Series.str.contains(pat, regex=True)` on one cell value. -/
def pdStrContains (pat s : String) : Bool := searchPat (compilePat pat) s.data

/-- The per-row keep decision of the dataset-1 filter (lines 150-163):
the text stage keeps a row whose lowered email or name matches the
query (the query itself arrives pre-stripped and pre-lowered from
`st.text_input(...).strip().lower()`, line 142); the status stage,
skipped when the selector reads `"All"`, keeps a row whose lowered
status equals the lowered selector value. -/
def keepRow1 (textInput statusQuery : String) (r : Row) : Bool :=
  (if pyStrip (pyToLower textInput) = "" then true
   else pdStrContains (pyStrip (pyToLower textInput)) (pyToLower r.email)
     || pdStrContains (pyStrip (pyToLower textInput)) (pyToLower r.name))
  && (if statusQuery = "All" then true
      else pyToLower r.status == pyToLower statusQuery)

/-- The dataset-1 filter (lines 150-163), exactly as staged in the
source: copy, then the text filter when the processed query is
non-empty, then the status filter unless the selector reads `"All"`. -/
def applyFilter1 (textInput statusQuery : String) (rows : List Row) : List Row :=
  let q := pyStrip (pyToLower textInput)
  let afterText :=
    if q = "" then rows
    else rows.filter (fun r =>
      pdStrContains q (pyToLower r.email) || pdStrContains q (pyToLower r.name))
  if statusQuery = "All" then afterText
  else afterText.filter (fun r => pyToLower r.status == pyToLower statusQuery)

/-- The dataset-2 filter (lines 297-303): the same text stage, with no
status stage. -/
def applyFilter2 (textInput : String) (rows : List Row) : List Row :=
  let q := pyStrip (pyToLower textInput)
  if q = "" then rows
  else rows.filter (fun r =>
    pdStrContains q (pyToLower r.email) || pdStrContains q (pyToLower r.name))

/-- The spec-side matching predicate, following the spec's words: the
query is "matched as a case-insensitive substring" of the field — i.e.
the lowered query occurs contiguously inside the lowered field. -/
def specSubstringMatch (q s : String) : Bool :=
  searchPat ((pyToLower q).data.map PatAtom.lit) (pyToLower s).data

example : pdStrContains "j.m" "jam" = true := by decide
example : specSubstringMatch "j.m" "jam" = false := by decide

/-- The per-row keep decision of the dataset-2 filter (lines 297-303). -/
def keepRow2 (textInput : String) (r : Row) : Bool :=
  if pyStrip (pyToLower textInput) = "" then true
  else pdStrContains (pyStrip (pyToLower textInput)) (pyToLower r.email)
    || pdStrContains (pyStrip (pyToLower textInput)) (pyToLower r.name)

theorem applyFilter1_eq_filter (tq sq : String) (rows : List Row) :
    applyFilter1 tq sq rows = rows.filter (keepRow1 tq sq) := by
  unfold applyFilter1 keepRow1
  by_cases hq : pyStrip (pyToLower tq) = "" <;>
    by_cases hs : sq = "All" <;>
      simp [hq, hs, List.filter_filter, Bool.and_comm]

theorem applyFilter2_eq_filter (tq : String) (rows : List Row) :
    applyFilter2 tq rows = rows.filter (keepRow2 tq) := by
  unfold applyFilter2 keepRow2
  by_cases hq : pyStrip (pyToLower tq) = "" <;> simp [hq]

/-- C9: the claim asserts a row is kept for a non-empty text query iff
the query is a case-insensitive substring of the name field or of the
email field.  But pandas `str.contains` treats the query as a regular
expression: the query `"j.m"` keeps a row named `"jam"` (the `.`
matches `a`) although `"j.m"` is a substring of neither the name
`"jam"` nor the email `"zz"`. -/
theorem C9_counterexample :
    applyFilter1 "j.m" "All" [⟨"zz", "jam", "", 2⟩] = [⟨"zz", "jam", "", 2⟩] ∧
    specSubstringMatch "j.m" "jam" = false ∧
    specSubstringMatch "j.m" "zz" = false := by
  decide

/-- C9 (amended): for both datasets the filter yields a subsequence of
its input preserving original relative order, and is idempotent; a row
is kept for a non-empty (stripped, lowered) text query iff the query,
interpreted as a regular-expression pattern as pandas `str.contains`
does by default, matches (after lowercasing both sides) somewhere in
the email field or in the name field (logical OR); and the status value
`"All"` disables the status filter, reducing the dataset-1 filter to
its text stage alone. -/
theorem C9_amended (rows rows2 : List Row) (tq sq tq2 : String) :
    (applyFilter1 tq sq rows).Sublist rows ∧
    applyFilter1 tq sq (applyFilter1 tq sq rows) = applyFilter1 tq sq rows ∧
    (applyFilter2 tq2 rows2).Sublist rows2 ∧
    applyFilter2 tq2 (applyFilter2 tq2 rows2) = applyFilter2 tq2 rows2 ∧
    (∀ r, r ∈ applyFilter1 tq sq rows ↔ r ∈ rows ∧
      (pyStrip (pyToLower tq) = "" ∨
        pdStrContains (pyStrip (pyToLower tq)) (pyToLower r.email) = true ∨
        pdStrContains (pyStrip (pyToLower tq)) (pyToLower r.name) = true) ∧
      (sq = "All" ∨ pyToLower r.status = pyToLower sq)) ∧
    applyFilter1 tq "All" rows = applyFilter2 tq rows := by
  refine ⟨?_, ?_, ?_, ?_, ?_, ?_⟩
  · rw [applyFilter1_eq_filter]; exact List.filter_sublist rows
  · simp only [applyFilter1_eq_filter, List.filter_filter, Bool.and_self]
  · rw [applyFilter2_eq_filter]; exact List.filter_sublist rows2
  · simp only [applyFilter2_eq_filter, List.filter_filter, Bool.and_self]
  · intro r
    rw [applyFilter1_eq_filter, List.mem_filter]
    unfold keepRow1
    by_cases hq : pyStrip (pyToLower tq) = "" <;>
      by_cases hs : sq = "All" <;>
        simp [hq, hs]
  · unfold applyFilter1 applyFilter2
    rfl

/-- C8: every loaded row's `RowNumber` equals its local index in the
loaded table plus the per-dataset header offset — 2 for Pending-Triage
(line 139), 4 for OPT-SVC (line 294) — which is its 1-based row number
in the backing sheet; it is assigned once at load, and filtering only
selects among the loaded rows (a sublist), leaving every row's
`RowNumber` as assigned; and both commit write sequences address every
cell by the row number passed, which the handlers take from
`record["RowNumber"]` (lines 185 and 325), never from the position in
the filtered view. -/
theorem C8_origin_position (rows rows2 : List RawRow) (i j : Nat)
    (tq sq tq2 : String)
    (h1 : i < (loadPendingTriage rows).length)
    (h2 : j < (loadOptSvc rows2).length) :
    ((loadPendingTriage rows).get ⟨i, h1⟩).rowNumber = i + 2 ∧
    ((loadOptSvc rows2).get ⟨j, h2⟩).rowNumber = j + 4 ∧
    (applyFilter1 tq sq (loadPendingTriage rows)).Sublist (loadPendingTriage rows) ∧
    (applyFilter2 tq2 (loadOptSvc rows2)).Sublist (loadOptSvc rows2) ∧
    (∀ (rn : Nat) (c a e d : String),
      (commitDataset1Writes rn c a e d).map CellWrite.row
        = List.replicate (commitDataset1Writes rn c a e d).length rn) ∧
    (∀ (rn : Nat) (ai aj ak al : Option String) (fs : String),
      (commitDataset2Writes rn ai aj ak al fs).map CellWrite.row
        = List.replicate (commitDataset2Writes rn ai aj ak al fs).length rn) := by
  refine ⟨?_, ?_, ?_, ?_, ?_, ?_⟩
  · simp [loadPendingTriage, assignRowNumbers, List.get_eq_getElem,
      List.getElem_map, List.getElem_enum]
  · simp [loadOptSvc, assignRowNumbers, List.get_eq_getElem,
      List.getElem_map, List.getElem_enum]
  · rw [applyFilter1_eq_filter]; exact List.filter_sublist _
  · rw [applyFilter2_eq_filter]; exact List.filter_sublist _
  · intro rn c a e d
    by_cases hy : a = "y"
    · subst hy; rfl
    by_cases hn : a = "n"
    · subst hn; rfl
    by_cases hm : a = "maybe"
    · subst hm; rfl
    unfold commitDataset1Writes
    rw [if_neg hy, if_neg hn, if_neg hm]
    split <;> rfl
  · intro rn ai aj ak al fs
    cases ai <;> cases aj <;> cases ak <;> cases al <;>
      by_cases hfs : fs = "" <;>
        simp [commitDataset2Writes, hfs, List.replicate]

/-- Witness for `C8_origin_position`: on a concrete two-row dataset the
second Pending-Triage row carries origin row number 3 and the first
OPT-SVC row carries origin row number 4. -/
theorem C8_origin_position_witness :
    ((loadPendingTriage [⟨"a@b", "A", ""⟩, ⟨"c@d", "B", ""⟩]).get
        ⟨1, by decide⟩).rowNumber = 1 + 2 ∧
    ((loadOptSvc [⟨"a@b", "A", ""⟩, ⟨"c@d", "B", ""⟩]).get
        ⟨0, by decide⟩).rowNumber = 0 + 4 :=
  ⟨(C8_origin_position [⟨"a@b", "A", ""⟩, ⟨"c@d", "B", ""⟩]
      [⟨"a@b", "A", ""⟩, ⟨"c@d", "B", ""⟩] 1 0 "" "All" "" (by decide) (by decide)).1,
   (C8_origin_position [⟨"a@b", "A", ""⟩, ⟨"c@d", "B", ""⟩]
      [⟨"a@b", "A", ""⟩, ⟨"c@d", "B", ""⟩] 1 0 "" "All" "" (by decide) (by decide)).2.1⟩

/-! ## The navigation cursor (lines 170-183, 252, 258-266 and
311-323, 393, 398-406) -/

/-- The cursor clamp performed on every render (lines 173-174 and
313-314): reset to 0 only when the stored position is at or past the
current view length (`if st.session_state.record_pos >=
len(filtered_df): st.session_state.record_pos = 0`).  Positions are
Python ints, hence integers. -/
def clampPos (pos : Int) (viewLen : Nat) : Int :=
  if (viewLen : Int) ≤ pos then 0 else pos

/-- One user action on the cursor: the Previous button, disabled at
position ≤ 0 (lines 259, 399); the Next button, disabled at position
≥ length - 1 (lines 264, 404); a successful submit, which advances
unconditionally before the rerun (lines 252, 393); and picking a
record in the selectbox, which stores that record's index in the
filtered view (lines 183, 323). -/
inductive NavOp
  | previous : NavOp
  | next : NavOp
  | submitSuccess : NavOp
  | select : Nat → NavOp
deriving DecidableEq, Repr

/-- Effect of one navigation action on the cursor; a disabled button is
a no-op. -/
def navStep (viewLen : Nat) (pos : Int) : NavOp → Int
  | NavOp.previous => if pos ≤ 0 then pos else pos - 1
  | NavOp.next => if (viewLen : Int) - 1 ≤ pos then pos else pos + 1
  | NavOp.submitSuccess => pos + 1
  | NavOp.select i => if i < viewLen then (i : Int) else pos

/-- C3: the claim asserts the clamp returns 0 whenever the prior
position is outside `[0, L)`, including negative positions.  It does
not: the clamp only tests `position >= view_length`, so a negative
prior position is returned unchanged — at length 5 the clamp maps -1
to -1, not 0, and -1 is outside the claimed range. -/
theorem C3_counterexample :
    clampPos (-1) 5 = -1 ∧ ((-1 : Int) < 0) := by decide

theorem clampPos_mem (p : Int) (L : Nat) (hL : 0 < L) (hp : 0 ≤ p) :
    0 ≤ clampPos p L ∧ clampPos p L < (L : Int) := by
  unfold clampPos
  split <;> omega

theorem navStep_nonneg (L : Nat) (p : Int) (op : NavOp) (hp : 0 ≤ p) :
    0 ≤ navStep L p op := by
  cases op <;> unfold navStep <;> (try split) <;> omega

/-- C3 (amended): the clamp resets to 0 exactly when the stored position
is at or past the view length, returning smaller positions — negative
ones included — unchanged.  For the positions the app can actually
store (non-negative ones: every navigation action maps a non-negative
position to a non-negative one, Previous being disabled at 0), the
clamped position always satisfies `0 ≤ clamp(p, L) < L` when `L > 0`;
the button actions and the selectbox additionally stay inside `[0, L)`
on their own, and the post-submit advance is brought back into range by
the clamp of the following render. -/
theorem C3_amended (p : Int) (L : Nat) (op : NavOp) (hL : 0 < L) (hp : 0 ≤ p) :
    (0 ≤ clampPos p L ∧ clampPos p L < (L : Int)) ∧
    0 ≤ navStep L p op ∧
    (p < (L : Int) → op ≠ NavOp.submitSuccess → navStep L p op < (L : Int)) ∧
    (0 ≤ clampPos (navStep L p op) L ∧ clampPos (navStep L p op) L < (L : Int)) := by
  refine ⟨clampPos_mem p L hL hp, navStep_nonneg L p op hp, ?_, ?_⟩
  · intro hpL hop
    cases op <;> simp only [navStep] <;> (try split) <;>
      first | omega | exact absurd rfl hop
  · exact clampPos_mem _ L hL (navStep_nonneg L p op hp)

/-- Witness for `C3_amended`: at view length 3 and stored position 7,
the clamp lands in range and the Previous action keeps the position
non-negative. -/
theorem C3_amended_witness :
    (0 ≤ clampPos 7 3 ∧ clampPos 7 3 < (3 : Int)) ∧
    0 ≤ navStep 3 7 NavOp.previous ∧
    ((7 : Int) < (3 : Int) → NavOp.previous ≠ NavOp.submitSuccess →
      navStep 3 7 NavOp.previous < (3 : Int)) ∧
    (0 ≤ clampPos (navStep 3 7 NavOp.previous) 3 ∧
      clampPos (navStep 3 7 NavOp.previous) 3 < (3 : Int)) :=
  C3_amended 7 3 NavOp.previous (by decide) (by decide)

/-! ## Per-row edit gating for dataset 1 (lines 216-234) -/

/-- Whether the dataset-1 "Submit Update" button is rendered at all for
a given role and row: the edit section requires the role to be one of
Editor, Admin, FM (line 216), and the button is rendered only when the
row's current status — `str(record[...]).strip().lower()` (line 217) —
is not already one of the terminal values `'y'`, `'n'` (line 232). -/
def submitAvailable1 (role statusCell : String) : Bool :=
  if role = "Editor" ∨ role = "Admin" ∨ role = "FM" then
    if pyToLower (pyStrip statusCell) = "y" ∨ pyToLower (pyStrip statusCell) = "n"
    then false
    else true
  else false

/-- C7: once a dataset-1 row's status cell holds a terminal value
(`"y"` or `"n"` after stripping and lowercasing), the submit/write
action is unavailable for that row for every role — the terminal-status
test sits inside the authorized-role branch, so it suppresses the
button for Admin exactly as for Editor and FM, and unauthorized roles
get no button at all. -/
theorem C7_terminal_row_readonly (role statusCell : String)
    (h : pyToLower (pyStrip statusCell) = "y" ∨
         pyToLower (pyStrip statusCell) = "n") :
    submitAvailable1 role statusCell = false := by
  unfold submitAvailable1
  rcases h with h | h <;> simp [h]

/-- Witness for `C7_terminal_row_readonly`: with role Admin and a
status cell reading `" Y "`, the submit action is unavailable. -/
theorem C7_terminal_row_readonly_witness :
    submitAvailable1 "Admin" " Y " = false :=
  C7_terminal_row_readonly "Admin" " Y " (by decide)

/-! ## Session state and the shared cursor key (lines 170-174, 311-314) -/

/-- Streamlit session state, restricted to the integer entries the apps
store: an association list from key to value, later bindings
shadowing earlier ones. -/
def SessionState : Type := List (String × Int)

/-- Reads `st.session_state[k]`, when present. -/
def sessionGet (s : SessionState) (k : String) : Option Int :=
  match s.find? (fun p => p.1 == k) with
  | some p => some p.2
  | none => none

/-- Performs `st.session_state[k] = v`. -/
def sessionSet (s : SessionState) (k : String) (v : Int) : SessionState :=
  (k, v) :: s

/-- The session key under which `show_pending_triage_app` keeps its
navigation cursor (`st.session_state.record_pos`, lines 170-183). -/
def pendingTriageCursorKey : String := "record_pos"

/-- The session key under which `show_opt_svc_app` keeps its navigation
cursor (`st.session_state.record_pos`, lines 311-323). -/
def optSvcCursorKey : String := "record_pos"

/-- Cursor initialization at the top of either app's navigation section
(lines 170-174 / 311-314): create the key at 0 when absent, otherwise
clamp the stored position against the current filtered-view length. -/
def navInitPos (key : String) (s : SessionState) (viewLen : Nat) : Int :=
  match sessionGet s key with
  | none => 0
  | some p => clampPos p viewLen

/-- C10: both apps address the navigation cursor under the one literal
session key `record_pos`, so the position stored while browsing either
dataset becomes — after re-clamping against the other view's length —
the starting position when the user switches to the other app; the
cursor is not scoped per dataset. -/
theorem C10_shared_cursor_key (s : SessionState) (p : Int) (len1 len2 : Nat) :
    pendingTriageCursorKey = optSvcCursorKey ∧
    navInitPos optSvcCursorKey (sessionSet s pendingTriageCursorKey p) len2
      = clampPos p len2 ∧
    navInitPos pendingTriageCursorKey (sessionSet s optSvcCursorKey p) len1
      = clampPos p len1 := by
  exact ⟨rfl, rfl, rfl⟩

/-! ## Name resolution for the dataset-load step (lines 135-138,
289-293, 412-414)

`main` assigns `client = get_google_sheets_client()` as one of its own
local variables (line 414).  Neither dataset app assigns `client`, and
no assignment to `client` exists at module scope, so the reads of
`client` at lines 137 and 292 resolve against the module globals and
the Python builtins.  The scopes are embedded as the literal sets of
names bound in the source file. -/

/-- The names bound at module scope of `Intake_Automation_Combine.py`:
the nine imported names (lines 1-9) and the six functions defined at
top level (lines 16, 47, 80, 90, 116, 273, 412); no module-level
assignment to `client` exists. -/
def moduleGlobals : List String :=
  ["st", "pd", "date", "datetime", "gspread", "get_as_dataframe",
   "ServiceAccountCredentials", "pytz", "time", "Credentials",
   "get_google_sheets_client", "load_permissions", "safe_date", "login",
   "show_pending_triage_app", "show_opt_svc_app", "main"]

/-- The local variables assigned anywhere in the body of
`show_pending_triage_app` (lines 116-270); a name outside this list
read inside the function resolves as a global. -/
def pendingTriageLocals : List String :=
  ["user_email", "user_role", "pacific", "today_date", "SHEET_ID",
   "SHEET_NAME", "sheet", "df", "name_email_filter", "status_filter",
   "filtered_df", "default_record_index", "record_index", "record",
   "row_number", "summary_fields", "table_md", "label", "col", "value",
   "current_status", "comments_default", "accepted_default", "accepted",
   "comments", "col1", "col2", "col3", "e"]

/-- The local variables assigned anywhere in the body of
`show_opt_svc_app` (lines 273-408). -/
def optSvcLocals : List String :=
  ["user_role", "SHEET_ID", "SHEET_NAME", "sheet", "df",
   "name_email_filter", "filtered_df", "default_record_index",
   "record_index", "record", "row_number", "col_summary", "col_edit",
   "summary_fields", "table_md", "label", "col", "value",
   "vcl_issued_default", "vcl_start_default", "vcl_end_default",
   "vel_issued_default", "final_status_default", "vcl_issued",
   "vcl_start", "vcl_end", "vel_issued", "final_status", "col1", "col2",
   "col3", "e"]

/-- The Python builtin names this module touches; `client` is not a
builtin. -/
def pythonBuiltins : List String :=
  ["str", "int", "list", "print", "len", "Exception", "__name__"]

/-- CPython name resolution for a variable read inside one of these
function bodies (no closures are involved): a name the function
assigns is local, otherwise the module globals and then the builtins
are consulted; an unbound name raises `NameError`. -/
def resolveName (locals : List String) (n : String) : Except String Unit :=
  if n ∈ locals ∨ n ∈ moduleGlobals ∨ n ∈ pythonBuiltins then Except.ok ()
  else Except.error ("NameError: name " ++ n ++ " is not defined")

/-- Result of attempting the dataset-load step of an app. -/
inductive LoadOutcome
  | noAccess : LoadOutcome
  | nameError : String → LoadOutcome
  | loaded : LoadOutcome
deriving DecidableEq, Repr

/-- The dataset-load step of `show_pending_triage_app`: behind the role
gate (line 128), line 137 evaluates `client.open_by_key(...)`, which
begins by resolving the name `client`; a `NameError` there aborts the
step before any backing-store call can be made. -/
def pendingTriageLoadStep (role : String) : LoadOutcome :=
  if role = "FM" ∨ role = "Admin" ∨ role = "Editor" then
    match resolveName pendingTriageLocals "client" with
    | Except.error msg => LoadOutcome.nameError msg
    | Except.ok _ => LoadOutcome.loaded
  else LoadOutcome.noAccess

/-- The dataset-load step of `show_opt_svc_app`: behind the role gate
(line 283), line 292 evaluates `client.open_by_key(...)` the same
way. -/
def optSvcLoadStep (role : String) : LoadOutcome :=
  if role = "HRS" ∨ role = "Admin" ∨ role = "Editor" ∨ role = "Viewer" ∨
     role = "FM" then
    match resolveName optSvcLocals "client" with
    | Except.error msg => LoadOutcome.nameError msg
    | Except.ok _ => LoadOutcome.loaded
  else LoadOutcome.noAccess

/-- C2: `client` is bound neither in the scopes of the two app
functions nor at module scope (`main` assigns it only as its own
local, line 414), so for every authorized role the dataset-load step
of either app raises `NameError: name client is not defined`, and for
every role whatsoever the successful-load outcome is unreachable. -/
theorem C2_client_unbound (role : String) :
    (role = "FM" ∨ role = "Admin" ∨ role = "Editor" →
      pendingTriageLoadStep role
        = LoadOutcome.nameError "NameError: name client is not defined") ∧
    (role = "HRS" ∨ role = "Admin" ∨ role = "Editor" ∨ role = "Viewer" ∨
       role = "FM" →
      optSvcLoadStep role
        = LoadOutcome.nameError "NameError: name client is not defined") ∧
    pendingTriageLoadStep role ≠ LoadOutcome.loaded ∧
    optSvcLoadStep role ≠ LoadOutcome.loaded := by
  have hp : resolveName pendingTriageLocals "client"
      = Except.error "NameError: name client is not defined" := rfl
  have ho : resolveName optSvcLocals "client"
      = Except.error "NameError: name client is not defined" := rfl
  refine ⟨?_, ?_, ?_, ?_⟩
  · intro h
    unfold pendingTriageLoadStep
    rw [if_pos h, hp]
  · intro h
    unfold optSvcLoadStep
    rw [if_pos h, ho]
  · unfold pendingTriageLoadStep
    split
    · rw [hp]; intro hc; exact LoadOutcome.noConfusion hc
    · intro hc; exact LoadOutcome.noConfusion hc
  · unfold optSvcLoadStep
    split
    · rw [ho]; intro hc; exact LoadOutcome.noConfusion hc
    · intro hc; exact LoadOutcome.noConfusion hc

/-- Witness for `C2_client_unbound`: the Admin role, authorized for
both apps, hits the `NameError` in each. -/
theorem C2_client_unbound_witness :
    pendingTriageLoadStep "Admin"
      = LoadOutcome.nameError "NameError: name client is not defined" ∧
    optSvcLoadStep "Admin"
      = LoadOutcome.nameError "NameError: name client is not defined" :=
  ⟨(C2_client_unbound "Admin").1 (Or.inr (Or.inl rfl)),
   (C2_client_unbound "Admin").2.1 (Or.inr (Or.inl rfl))⟩

end Intake
